import Mathlib

/-!
Verification of the shunting-yard expression engine in `src/main.cpp`.

The C++ program defines a token model (`Token` with `NumberToken`,
`OperatorToken`, `SymbolToken` subclasses), a reordering pass
`shuntingYardAlgorithm` converting an infix token sequence into a postfix
output stack, and a recursive postfix evaluator `evaluateExpressionTokens`.

Shallow embedding conventions:
- the class hierarchy becomes one flat `Token` structure with a `type` tag;
  the operator-only fields carry their C++ names (`d_value`, `d_precedence`,
  `d_leftAssociative`, `d_unary`) and are read only where the C++ reads them;
- `std::stack` becomes `List Token` with the head as the stack top;
- the in-place mutation of a `+`/`-` token during unary disambiguation is
  threaded functionally: the retagged token value is the one pushed and the
  one recorded as `previousToken`, exactly as the shared pointer makes the
  mutation visible in C++;
- `std::cout` diagnostics are collected as a `List String` in print order;
- the recursive evaluator consumes a stack whose size is not structurally
  decreasing, so it is defined with a fuel parameter; `evaluateExpressionTokens`
  supplies fuel equal to the stack length, which is proved sufficient
  (`evalFuel_shrink`, `evalFuel_mono`);
- popping an empty stack and division by zero are undefined behavior in the
  C++ source; the embedding returns `none` in those cases;
- `int64_t` overflow never occurs on the values the claims mention, so
  integers are modeled as unbounded `Int`.
-/

namespace ShuntingYard

inductive TokenType where
  | Number
  | Operator
  | Symbol
  deriving DecidableEq

structure Token where
  type : TokenType
  d_value : String
  d_precedence : Nat
  d_leftAssociative : Bool
  d_unary : Bool
  deriving DecidableEq

/-- Constructor mirroring `NumberToken(value)`; the operator fields take the
`OperatorToken` constructor defaults (precedence 1, left-associative, binary),
which the C++ never reads on a number. -/
def NumberToken (value : String) : Token :=
  { type := TokenType.Number, d_value := value, d_precedence := 1,
    d_leftAssociative := true, d_unary := false }

/-- Constructor mirroring
`OperatorToken(value, precedence = 1, leftAssociative = true, unary = false)`. -/
def OperatorToken (value : String) (precedence : Nat) (leftAssociative : Bool)
    (unary : Bool) : Token :=
  { type := TokenType.Operator, d_value := value, d_precedence := precedence,
    d_leftAssociative := leftAssociative, d_unary := unary }

/-- Constructor mirroring `SymbolToken(value)`. -/
def SymbolToken (value : String) : Token :=
  { type := TokenType.Symbol, d_value := value, d_precedence := 1,
    d_leftAssociative := true, d_unary := false }

def tokenTypeName : TokenType → String
  | TokenType.Number => "Number"
  | TokenType.Operator => "Operator"
  | TokenType.Symbol => "Symbol"

/-- Model of `Token::toString` and `OperatorToken::toString`: virtual dispatch picks the
operator override for Operator-typed tokens and the base rendering otherwise. -/
def Token.toString (t : Token) : String :=
  if t.type = TokenType.Operator then
    "('Operator': '" ++ t.d_value ++ "', " ++
      (if t.d_unary then "unary" else "binary") ++ ")"
  else
    "('" ++ tokenTypeName t.type ++ "': '" ++ t.d_value ++ "')"

/-- Digit-accumulation part of `std::atoll`. -/
def atollDigits : List Char → Int → Int
  | [], acc => acc
  | c :: cs, acc =>
      if c.isDigit then atollDigits cs (acc * 10 + (c.toNat - 48 : Nat))
      else acc

/-- Model of `NumberToken::getIntValue`, i.e. `std::atoll` on the lexeme: skip leading
whitespace, an optional sign, then the longest digit prefix (0 if none). -/
def atoll (s : String) : Int :=
  match s.toList.dropWhile (fun c => c = ' ' ∨ c = '\t' ∨ c = '\n' ∨ c = '\r' ∨ c = '\x0b' ∨ c = '\x0c') with
  | '-' :: rest => - atollDigits rest 0
  | '+' :: rest => atollDigits rest 0
  | rest => atollDigits rest 0

/-- The unary `+`/`-` disambiguation at `main.cpp:164-170`: applied to the
token just read (of Operator type), with `prev` the `previousToken` pointer. -/
def retagUnary (prev : Option Token) (t : Token) : Token :=
  if t.d_value = "+" ∨ t.d_value = "-" then
    match prev with
    | none => { t with d_unary := true, d_leftAssociative := false }
    | some p =>
        if p.type = TokenType.Operator ∨ p.type = TokenType.Symbol then
          { t with d_unary := true, d_leftAssociative := false }
        else t
  else t

/-- The pop-before-push loop at `main.cpp:172-186`: `cur` is the incoming
operator; returns the updated output stack and operator stack. -/
def popWhileHigher (cur : Token) : List Token → List Token → List Token × List Token
  | out, [] => (out, [])
  | out, top :: rest =>
      if top.d_value = "(" then (out, top :: rest)
      else if top.d_precedence < cur.d_precedence then (out, top :: rest)
      else if top.d_precedence = cur.d_precedence ∧ cur.d_leftAssociative = false then
        (out, top :: rest)
      else popWhileHigher cur (top :: out) rest

/-- The loop at `main.cpp:194-200`: on a `")"`, pop operators to the output
stack until the top is `"("` or the stack is empty. -/
def popUntilParen : List Token → List Token → List Token × List Token
  | out, [] => (out, [])
  | out, top :: rest =>
      if top.d_value = "(" then (out, top :: rest)
      else popUntilParen (top :: out) rest

/-- The main `while (!inputQueue.empty())` loop of `shuntingYardAlgorithm`
(`main.cpp:150-213`). State: remaining input, output stack, operator stack,
`previousToken`. Returns the stacks at loop exit plus emitted diagnostics. -/
def syaLoop : List Token → List Token → List Token → Option Token →
    List Token × List Token × List String
  | [], out, ops, _ => (out, ops, [])
  | t :: rest, out, ops, prev =>
      if t.type = TokenType.Number then
        syaLoop rest (t :: out) ops (some t)
      else if t.d_value = "(" then
        syaLoop rest out (t :: ops) (some t)
      else if t.type = TokenType.Operator then
        let t1 := retagUnary prev t
        let p := popWhileHigher t1 out ops
        syaLoop rest p.1 (t1 :: p.2) (some t1)
      else if t.d_value = ")" then
        let p := popUntilParen out ops
        match p.2 with
        | [] => (p.1, [], ["Mismatched parenthesis error!\n"])
        | lp :: ops1 =>
            if lp.d_value = "(" then syaLoop rest p.1 ops1 (some t)
            else (p.1, lp :: ops1, ["Mismatched parenthesis error!\n"])
      else
        syaLoop rest out ops (some t)

/-- The final drain at `main.cpp:216-219`: pop every remaining operator-stack
token onto the output stack. -/
def drainOperatorStack : List Token → List Token → List Token
  | out, [] => out
  | out, top :: rest => drainOperatorStack (top :: out) rest

/-- Model of `shuntingYardAlgorithm` (`main.cpp:144-222`): returns the output stack
(head = top) and the diagnostics printed during the pass. -/
def shuntingYardAlgorithm (inputQueue : List Token) : List Token × List String :=
  let r := syaLoop inputQueue [] [] none
  (drainOperatorStack r.1 r.2.1, r.2.2)

/-- The message printed at `main.cpp:255`. -/
def errMsg (t : Token) : String :=
  "Error evaluating token: " ++ Token.toString t ++ "\n"

/-- The unary-operator dispatch at `main.cpp:232-239` applied to the already
evaluated operand; falling past the `"!"`, `"+"`, `"-"` chain reaches the
error print at `main.cpp:255` and returns the sentinel `0`. -/
def applyUnary (t : Token) (rhs : Int) (st1 : List Token) (d1 : List String) :
    Option (Int × List Token × List String) :=
  if t.d_value = "!" then some (if rhs = 0 then 1 else 0, st1, d1)
  else if t.d_value = "+" then some (rhs, st1, d1)
  else if t.d_value = "-" then some (-rhs, st1, d1)
  else some (0, st1, d1 ++ [errMsg t])

/-- The binary-operator dispatch at `main.cpp:244-251` applied to the already
evaluated operands; `lhs / rhs` with `rhs = 0` is undefined behavior in C++
and is modeled as `none`; falling past the chain reaches the error print at
`main.cpp:255` and returns the sentinel `0`. -/
def applyBinary (t : Token) (lhs rhs : Int) (st2 : List Token) (d : List String) :
    Option (Int × List Token × List String) :=
  if t.d_value = "+" then some (lhs + rhs, st2, d)
  else if t.d_value = "-" then some (lhs - rhs, st2, d)
  else if t.d_value = "*" then some (lhs * rhs, st2, d)
  else if t.d_value = "/" then
    if rhs = 0 then none else some (Int.tdiv lhs rhs, st2, d)
  else some (0, st2, d ++ [errMsg t])

/-- Body of `evaluateExpressionTokens` with explicit fuel; each call pops one
token. `none` models undefined behavior (empty-stack pop, division by zero)
or fuel exhaustion; `some (v, rest, diags)` is the returned value, the stack
left behind, and the diagnostics printed in order. The binary branch
evaluates the right-hand operand first, then the left-hand operand, as at
`main.cpp:241-242`. -/
def evalFuel : Nat → List Token → Option (Int × List Token × List String)
  | _, [] => none
  | 0, _ :: _ => none
  | fuel + 1, t :: rest =>
      if t.type = TokenType.Number then
        some (atoll t.d_value, rest, [])
      else if t.type = TokenType.Operator then
        if t.d_unary then
          (evalFuel fuel rest).bind fun r => applyUnary t r.1 r.2.1 r.2.2
        else
          (evalFuel fuel rest).bind fun r =>
            (evalFuel fuel r.2.1).bind fun r2 =>
              applyBinary t r2.1 r.1 r2.2.1 (r.2.2 ++ r2.2.2)
      else
        some (0, rest, [errMsg t])

/-- Model of `evaluateExpressionTokens` (`main.cpp:224-257`): the recursion consumes at
least one token per call, so fuel equal to the stack length always suffices. -/
def evaluateExpressionTokens (st : List Token) : Option (Int × List Token × List String) :=
  evalFuel st.length st

/-- The active static `TOKENS` list at `main.cpp:123-135`:
`- 6 + 2 * ( - 3 - 1 )`. -/
def TOKENS : List Token :=
  [ OperatorToken "-" 1 false false,
    NumberToken "6",
    OperatorToken "+" 1 true false,
    NumberToken "2",
    OperatorToken "*" 2 true false,
    SymbolToken "(",
    OperatorToken "-" 1 false false,
    NumberToken "3",
    OperatorToken "-" 1 true false,
    NumberToken "1",
    SymbolToken ")" ]

/-- The commented-out sample at `main.cpp:103-113`, as described in the claim:
`4 + 2 * ( 3 - 1 )` with `+`,`-` at precedence 1 and `*` at precedence 2, all
left-associative and binary. -/
def TOKENS1 : List Token :=
  [ NumberToken "4",
    OperatorToken "+" 1 true false,
    NumberToken "2",
    OperatorToken "*" 2 true false,
    SymbolToken "(",
    NumberToken "3",
    OperatorToken "-" 1 true false,
    NumberToken "1",
    SymbolToken ")" ]

/-! ### Supporting lemmas: the fuel parameter is an artifact of the embedding -/

theorem evalFuel_nil (f : Nat) : evalFuel f [] = none := by
  cases f <;> rfl

theorem applyUnary_stack (t : Token) (rhs v : Int) (st1 st' : List Token)
    (d1 d' : List String) (h : applyUnary t rhs st1 d1 = some (v, st', d')) :
    st' = st1 := by
  unfold applyUnary at h
  split_ifs at h <;> simp_all

theorem applyBinary_stack (t : Token) (lhs rhs v : Int) (st2 st' : List Token)
    (d d' : List String) (h : applyBinary t lhs rhs st2 d = some (v, st', d')) :
    st' = st2 := by
  unfold applyBinary at h
  split_ifs at h <;> simp_all

theorem evalFuel_cons_number (f : Nat) (t : Token) (rest : List Token)
    (h : t.type = TokenType.Number) :
    evalFuel (f + 1) (t :: rest) = some (atoll t.d_value, rest, []) := by
  simp [evalFuel, h]

theorem evalFuel_cons_unary (f : Nat) (t : Token) (rest : List Token)
    (hop : t.type = TokenType.Operator) (hun : t.d_unary = true) :
    evalFuel (f + 1) (t :: rest) =
      (evalFuel f rest).bind fun r => applyUnary t r.1 r.2.1 r.2.2 := by
  simp [evalFuel, hop, hun]

theorem evalFuel_cons_binary (f : Nat) (t : Token) (rest : List Token)
    (hop : t.type = TokenType.Operator) (hun : t.d_unary = false) :
    evalFuel (f + 1) (t :: rest) =
      (evalFuel f rest).bind fun r =>
        (evalFuel f r.2.1).bind fun r2 =>
          applyBinary t r2.1 r.1 r2.2.1 (r.2.2 ++ r2.2.2) := by
  simp [evalFuel, hop, hun]

theorem evalFuel_cons_other (f : Nat) (t : Token) (rest : List Token)
    (hn : t.type ≠ TokenType.Number) (ho : t.type ≠ TokenType.Operator) :
    evalFuel (f + 1) (t :: rest) = some (0, rest, [errMsg t]) := by
  simp [evalFuel, hn, ho]

/-- Each evaluator call consumes at least the token it pops: the stack it
returns is strictly shorter than the one it received. -/
theorem evalFuel_shrink : ∀ (f : Nat) (st : List Token) (v : Int)
    (st1 : List Token) (d : List String),
    evalFuel f st = some (v, st1, d) → st1.length < st.length := by
  intro f
  induction f with
  | zero =>
      intro st v st1 d h
      cases st <;> simp [evalFuel] at h
  | succ f ih =>
      intro st v st1 d h
      cases st with
      | nil => simp [evalFuel] at h
      | cons t rest =>
          by_cases hnum : t.type = TokenType.Number
          · rw [evalFuel_cons_number f t rest hnum] at h
            simp only [Option.some.injEq, Prod.mk.injEq] at h
            obtain ⟨-, h2, -⟩ := h
            simp [← h2]
          · by_cases hop : t.type = TokenType.Operator
            · cases hun : t.d_unary with
              | true =>
                  rw [evalFuel_cons_unary f t rest hop hun] at h
                  rw [Option.bind_eq_some] at h
                  obtain ⟨⟨rhs, s1, d1⟩, hrec, happ⟩ := h
                  have hs := applyUnary_stack t rhs v s1 st1 d1 d happ
                  have hlt := ih rest rhs s1 d1 hrec
                  subst hs
                  simp only [List.length_cons]
                  omega
              | false =>
                  rw [evalFuel_cons_binary f t rest hop hun] at h
                  rw [Option.bind_eq_some] at h
                  obtain ⟨⟨rhs, s1, d1⟩, hrec1, h2⟩ := h
                  rw [Option.bind_eq_some] at h2
                  obtain ⟨⟨lhs, s2, d2⟩, hrec2, happ⟩ := h2
                  have hs := applyBinary_stack t lhs rhs v s2 st1 (d1 ++ d2) d happ
                  have hlt1 := ih rest rhs s1 d1 hrec1
                  have hlt2 := ih s1 lhs s2 d2 hrec2
                  subst hs
                  simp only [List.length_cons]
                  omega
            · rw [evalFuel_cons_other f t rest hnum hop] at h
              simp only [Option.some.injEq, Prod.mk.injEq] at h
              obtain ⟨-, h2, -⟩ := h
              simp [← h2]

/-- Any fuel at least the stack length computes the same result: the fuel is
irrelevant once sufficient. -/
theorem evalFuel_mono : ∀ (n f g : Nat) (st : List Token),
    st.length ≤ n → st.length ≤ f → st.length ≤ g →
    evalFuel f st = evalFuel g st := by
  intro n
  induction n with
  | zero =>
      intro f g st hn _ _
      have : st = [] := List.length_eq_zero.mp (Nat.le_zero.mp hn)
      subst this
      rw [evalFuel_nil, evalFuel_nil]
  | succ n ih =>
      intro f g st hn hf hg
      cases st with
      | nil => rw [evalFuel_nil, evalFuel_nil]
      | cons t rest =>
          cases f with
          | zero => simp only [List.length_cons] at hf; omega
          | succ f1 =>
              cases g with
              | zero => simp only [List.length_cons] at hg; omega
              | succ g1 =>
                  have hrn : rest.length ≤ n := by
                    simp only [List.length_cons] at hn; omega
                  have hrf : rest.length ≤ f1 := by
                    simp only [List.length_cons] at hf; omega
                  have hrg : rest.length ≤ g1 := by
                    simp only [List.length_cons] at hg; omega
                  have hR : evalFuel f1 rest = evalFuel g1 rest :=
                    ih f1 g1 rest hrn hrf hrg
                  by_cases hnum : t.type = TokenType.Number
                  · rw [evalFuel_cons_number f1 t rest hnum,
                      evalFuel_cons_number g1 t rest hnum]
                  · by_cases hop : t.type = TokenType.Operator
                    · cases hun : t.d_unary with
                      | true =>
                          rw [evalFuel_cons_unary f1 t rest hop hun,
                            evalFuel_cons_unary g1 t rest hop hun, hR]
                      | false =>
                          rw [evalFuel_cons_binary f1 t rest hop hun,
                            evalFuel_cons_binary g1 t rest hop hun, hR]
                          cases hE : evalFuel g1 rest with
                          | none => rfl
                          | some r =>
                              obtain ⟨rhs, s1, d1⟩ := r
                              have hs1 : s1.length < rest.length :=
                                evalFuel_shrink g1 rest rhs s1 d1 hE
                              have hI : evalFuel f1 s1 = evalFuel g1 s1 :=
                                ih f1 g1 s1 (by omega) (by omega) (by omega)
                              exact congrArg
                                (fun o => o.bind fun r2 =>
                                  applyBinary t r2.1 rhs r2.2.1 (d1 ++ r2.2.2)) hI
                    · rw [evalFuel_cons_other f1 t rest hnum hop,
                        evalFuel_cons_other g1 t rest hnum hop]

/-- Fuel adequacy: `evaluateExpressionTokens` supplies fuel equal to the stack length; any
larger fuel computes the same thing. -/
theorem evalFuel_eq_evaluateExpressionTokens (f : Nat) (st : List Token)
    (h : st.length ≤ f) : evalFuel f st = evaluateExpressionTokens st :=
  evalFuel_mono st.length f st.length st le_rfl h le_rfl

/-! ### Claim theorems -/

/-- C1: for the input token sequence `4 + 2 * ( 3 - 1 )` (with `+`,`-` at
precedence 1, `*` at precedence 2, all left-associative binary),
`shuntingYardAlgorithm` followed by `evaluateExpressionTokens` on the
resulting stack yields the integer 8 (leaving an empty stack and printing
no diagnostics). -/
theorem claim_C1 :
    evaluateExpressionTokens (shuntingYardAlgorithm TOKENS1).1 =
      some (8, [], []) := by
  decide

/-- C2: for the static `TOKENS` input `- 6 + 2 * ( - 3 - 1 )`,
`shuntingYardAlgorithm` followed by `evaluateExpressionTokens` yields -14,
and the returned postfix stack shows both leading `-` tokens re-tagged as
unary (and right-associative) during the pass, the other tokens unchanged. -/
theorem claim_C2 :
    evaluateExpressionTokens (shuntingYardAlgorithm TOKENS).1 =
        some (-14, [], []) ∧
      (shuntingYardAlgorithm TOKENS).1 =
        [ OperatorToken "+" 1 true false,
          OperatorToken "*" 2 true false,
          OperatorToken "-" 1 true false,
          NumberToken "1",
          OperatorToken "-" 1 false true,
          NumberToken "3",
          NumberToken "2",
          OperatorToken "-" 1 false true,
          NumberToken "6" ] ∧
      (shuntingYardAlgorithm TOKENS).2 = [] := by
  exact ⟨by decide, by decide, by decide⟩

/-- C6: after the main loop exits (input exhausted or early error), every
token remaining on the operator stack is popped onto the output stack in
LIFO order with no unmatched-`"("` check and no diagnostic; concretely, the
input `( 3` leaves its unmatched `"("` on top of the returned output stack
with no error reported. -/
theorem claim_C6 :
    (∀ out ops : List Token,
        drainOperatorStack out ops = ops.reverse ++ out) ∧
      (∀ input : List Token,
        shuntingYardAlgorithm input =
          ((syaLoop input [] [] none).2.1.reverse ++ (syaLoop input [] [] none).1,
            (syaLoop input [] [] none).2.2)) ∧
      shuntingYardAlgorithm [SymbolToken "(", NumberToken "3"] =
        ([SymbolToken "(", NumberToken "3"], []) := by
  have hdrain : ∀ ops out : List Token,
      drainOperatorStack out ops = ops.reverse ++ out := by
    intro ops
    induction ops with
    | nil => intro out; simp [drainOperatorStack]
    | cons top rest ih => intro out; simp [drainOperatorStack, ih]
  refine ⟨fun out ops => hdrain ops out, ?_, by decide⟩
  intro input
  show (drainOperatorStack (syaLoop input [] [] none).1
          (syaLoop input [] [] none).2.1,
        (syaLoop input [] [] none).2.2) = _
  rw [hdrain]

/-- C9 counterexample: the claim renders the kind name unquoted
(`"(Number: '4')"`), but `Token::toString` wraps the kind name in single
quotes: it actually returns `"('Number': '4')"`, and similarly
`"('Operator': '+', binary)"` for operators. -/
theorem claim_C9_counterexample :
    Token.toString (NumberToken "4") ≠ "(Number: '4')" ∧
      Token.toString (NumberToken "4") = "('Number': '4')" ∧
      Token.toString (OperatorToken "+" 1 true false) ≠
        "(Operator: '+', binary)" ∧
      Token.toString (OperatorToken "+" 1 true false) =
        "('Operator': '+', binary)" := by
  decide

/-- C9 (amended): for every Number or Symbol token with text t,
`toString` returns `"('<Kind>': '<t>')"` with the kind name single-quoted
(e.g. `"('Number': '4')"`, `"('Symbol': '(')"`), and for every Operator
token with text t it returns `"('Operator': '<t>', unary)"` when the unary
field is true and `"('Operator': '<t>', binary)"` when it is false. -/
theorem claim_C9 (t : Token) :
    (t.type = TokenType.Number →
        Token.toString t = "('Number': '" ++ t.d_value ++ "')") ∧
      (t.type = TokenType.Symbol →
        Token.toString t = "('Symbol': '" ++ t.d_value ++ "')") ∧
      (t.type = TokenType.Operator → t.d_unary = true →
        Token.toString t = "('Operator': '" ++ t.d_value ++ "', unary)") ∧
      (t.type = TokenType.Operator → t.d_unary = false →
        Token.toString t = "('Operator': '" ++ t.d_value ++ "', binary)") := by
  refine ⟨fun h => ?_, fun h => ?_, fun h hu => ?_, fun h hu => ?_⟩ <;>
    simp [Token.toString, tokenTypeName, h, *, String.append_assoc]

/-- Witness for C9: the amended rendering checked on the concrete tokens
`4`, `(`, unary `-`, binary `+`. -/
theorem claim_C9_witness :
    Token.toString (NumberToken "4") = "('Number': '4')" ∧
      Token.toString (SymbolToken "(") = "('Symbol': '(')" ∧
      Token.toString (OperatorToken "-" 1 false true) =
        "('Operator': '-', unary)" ∧
      Token.toString (OperatorToken "+" 1 true false) =
        "('Operator': '+', binary)" := by
  refine ⟨?_, ?_, ?_, ?_⟩
  · have h := (claim_C9 (NumberToken "4")).1 rfl
    simpa using h
  · have h := (claim_C9 (SymbolToken "(")).2.1 rfl
    simpa using h
  · have h := (claim_C9 (OperatorToken "-" 1 false true)).2.2.1 rfl rfl
    simpa using h
  · have h := (claim_C9 (OperatorToken "+" 1 true false)).2.2.2 rfl rfl
    simpa using h

/-- C3: during reordering, an Operator token whose text is `"+"` or `"-"`
has its unary field set to true and its leftAssociative field set to false
exactly when the previously consumed token is absent or of Operator or
Symbol kind (all other fields unchanged); when the previous token is a
Number both fields are left unchanged; and the operator step of the loop
uses the retagged token for the pop loop, the push, and `previousToken`,
independently at each occurrence. -/
theorem claim_C3 (prev : Option Token) (t : Token)
    (hop : t.type = TokenType.Operator)
    (hpm : t.d_value = "+" ∨ t.d_value = "-") :
    ((prev = none ∨ ∃ p, prev = some p ∧
        (p.type = TokenType.Operator ∨ p.type = TokenType.Symbol)) →
      retagUnary prev t =
        { t with d_unary := true, d_leftAssociative := false }) ∧
    (∀ p, prev = some p → p.type = TokenType.Number →
      retagUnary prev t = t) ∧
    (∀ rest out ops,
      syaLoop (t :: rest) out ops prev =
        syaLoop rest (popWhileHigher (retagUnary prev t) out ops).1
          (retagUnary prev t :: (popWhileHigher (retagUnary prev t) out ops).2)
          (some (retagUnary prev t))) := by
  have hne : t.d_value ≠ "(" := by
    rcases hpm with h | h <;> rw [h] <;> decide
  refine ⟨fun h => ?_, fun p hp hnum => ?_, fun rest out ops => ?_⟩
  · rcases h with h | ⟨p, hp, hcase⟩
    · subst h
      unfold retagUnary
      rw [if_pos hpm]
    · subst hp
      unfold retagUnary
      rw [if_pos hpm]
      simp [hcase]
  · subst hp
    unfold retagUnary
    rw [if_pos hpm]
    simp [hnum]
  · simp [syaLoop, hop, hne]

/-- Witness for C3: a leading `-` (no previous token) and a `+` after `"("`
are retagged unary and right-associative; a `-` after a Number is unchanged. -/
theorem claim_C3_witness :
    retagUnary none (OperatorToken "-" 1 true false) =
        OperatorToken "-" 1 false true ∧
      retagUnary (some (SymbolToken "(")) (OperatorToken "+" 1 true false) =
        OperatorToken "+" 1 false true ∧
      retagUnary (some (NumberToken "4")) (OperatorToken "-" 1 true false) =
        OperatorToken "-" 1 true false := by
  refine ⟨?_, ?_, ?_⟩
  · exact ((claim_C3 none (OperatorToken "-" 1 true false) rfl
      (Or.inr rfl)).1 (Or.inl rfl)).trans (by decide)
  · exact ((claim_C3 (some (SymbolToken "(")) (OperatorToken "+" 1 true false)
      rfl (Or.inl rfl)).1
      (Or.inr ⟨SymbolToken "(", rfl, Or.inr rfl⟩)).trans (by decide)
  · exact (claim_C3 (some (NumberToken "4")) (OperatorToken "-" 1 true false)
      rfl (Or.inr rfl)).2.1 (NumberToken "4") rfl rfl

/-- C4: in the pop-before-push loop with incoming operator `cur` and a
non-`"("` stack top, the top is popped onto the output stack iff its
precedence is strictly greater than `cur`'s, or the precedences are equal
and `cur` is left-associative; on strictly smaller top precedence, or equal
precedence with `cur` right-associative, or a `"("` top, the loop stops
without popping; and the operator step then pushes the incoming operator
onto the operator stack above whatever the loop left there. -/
theorem claim_C4 (cur top : Token) (out rest : List Token)
    (hpar : top.d_value ≠ "(") :
    ((top.d_precedence > cur.d_precedence ∨
        (top.d_precedence = cur.d_precedence ∧
          cur.d_leftAssociative = true)) →
      popWhileHigher cur out (top :: rest) =
        popWhileHigher cur (top :: out) rest) ∧
    ((top.d_precedence < cur.d_precedence ∨
        (top.d_precedence = cur.d_precedence ∧
          cur.d_leftAssociative = false)) →
      popWhileHigher cur out (top :: rest) = (out, top :: rest)) ∧
    (∀ lp : Token, lp.d_value = "(" → ∀ ops : List Token,
      popWhileHigher cur out (lp :: ops) = (out, lp :: ops)) ∧
    (∀ prev input ops, cur.type = TokenType.Operator → cur.d_value ≠ "(" →
      retagUnary prev cur = cur →
      syaLoop (cur :: input) out ops prev =
        syaLoop input (popWhileHigher cur out ops).1
          (cur :: (popWhileHigher cur out ops).2) (some cur)) := by
  refine ⟨fun h => ?_, fun h => ?_, fun lp hlp ops => ?_,
    fun prev input ops hct hcv hretag => ?_⟩
  · rcases h with h | ⟨he, hl⟩
    · simp only [popWhileHigher]
      rw [if_neg hpar, if_neg (by omega), if_neg (by rintro ⟨h1, -⟩; omega)]
    · simp only [popWhileHigher]
      rw [if_neg hpar, if_neg (by omega),
        if_neg (by rintro ⟨-, h2⟩; rw [hl] at h2; cases h2)]
  · rcases h with h | ⟨he, hl⟩
    · simp only [popWhileHigher]
      rw [if_neg hpar, if_pos h]
    · simp only [popWhileHigher]
      rw [if_neg hpar, if_neg (by omega), if_pos ⟨he, hl⟩]
  · simp [popWhileHigher, hlp]
  · simp [syaLoop, hct, hcv, hretag]

/-- Witness for C4: `+` incoming over a `*` top pops the `*`; `*` incoming
over a `+` top stops without popping; any incoming operator stops on a `"("`
top; and the step pushes the incoming operator. -/
theorem claim_C4_witness :
    popWhileHigher (OperatorToken "+" 1 true false) []
        [OperatorToken "*" 2 true false] =
        ([OperatorToken "*" 2 true false], []) ∧
      popWhileHigher (OperatorToken "*" 2 true false) []
        [OperatorToken "+" 1 true false] =
        ([], [OperatorToken "+" 1 true false]) ∧
      popWhileHigher (OperatorToken "*" 2 true false) []
        [SymbolToken "("] = ([], [SymbolToken "("]) ∧
      syaLoop [OperatorToken "*" 2 true false] [] [] (some (NumberToken "2")) =
        ([], [OperatorToken "*" 2 true false], []) := by
  refine ⟨?_, ?_, ?_, ?_⟩
  · exact ((claim_C4 (OperatorToken "+" 1 true false)
      (OperatorToken "*" 2 true false) [] [] (by decide)).1
      (Or.inl (by decide))).trans (by decide)
  · exact (claim_C4 (OperatorToken "*" 2 true false)
      (OperatorToken "+" 1 true false) [] [] (by decide)).2.1
      (Or.inl (by decide))
  · exact (claim_C4 (OperatorToken "*" 2 true false)
      (OperatorToken "+" 1 true false) [] [] (by decide)).2.2.1
      (SymbolToken "(") rfl []
  · exact ((claim_C4 (OperatorToken "*" 2 true false)
      (OperatorToken "+" 1 true false) [] [] (by decide)).2.2.2
      (some (NumberToken "2")) [] [] rfl (by decide) (by decide)).trans
      (by decide)

/-- C5: on a `")"` symbol, operators are popped onto the output stack until
the top is `"("` or the stack is empty; if the operator stack then is empty
(or its top is not `"("`, a case the pop loop cannot actually produce), the
mismatched-parenthesis diagnostic is emitted and the pass stops, abandoning
the remaining input and returning the stacks as they stand; otherwise the
`"("` is popped and discarded without being emitted to the output. -/
theorem claim_C5 (t : Token) (rest out ops : List Token) (prev : Option Token)
    (hty : t.type = TokenType.Symbol) (hval : t.d_value = ")") :
    (∀ out1 : List Token, popUntilParen out ops = (out1, []) →
      syaLoop (t :: rest) out ops prev =
        (out1, [], ["Mismatched parenthesis error!\n"])) ∧
    (∀ out1 lp ops1, popUntilParen out ops = (out1, lp :: ops1) →
      lp.d_value = "(" →
      syaLoop (t :: rest) out ops prev = syaLoop rest out1 ops1 (some t)) ∧
    (∀ out1 lp ops1, popUntilParen out ops = (out1, lp :: ops1) →
      lp.d_value ≠ "(" →
      syaLoop (t :: rest) out ops prev =
        (out1, lp :: ops1, ["Mismatched parenthesis error!\n"])) := by
  refine ⟨fun out1 heq => ?_, fun out1 lp ops1 heq hlp => ?_,
    fun out1 lp ops1 heq hlp => ?_⟩
  · simp [syaLoop, hty, hval, heq]
  · simp [syaLoop, hty, hval, heq, hlp]
  · simp [syaLoop, hty, hval, heq, hlp]

/-- Witness for C5: a bare `")"` with an empty operator stack reports the
mismatch and stops; with `"("` on the operator stack the pair is discarded
and the run ends cleanly with nothing emitted. -/
theorem claim_C5_witness :
    syaLoop [SymbolToken ")"] [] [] none =
        ([], [], ["Mismatched parenthesis error!\n"]) ∧
      syaLoop [SymbolToken ")"] [] [SymbolToken "("] none = ([], [], []) := by
  refine ⟨?_, ?_⟩
  · exact (claim_C5 (SymbolToken ")") [] [] [] none rfl rfl).1 [] rfl
  · exact ((claim_C5 (SymbolToken ")") [] [] [SymbolToken "("] none rfl
      rfl).2.1 [] (SymbolToken "(") [] rfl rfl).trans (by decide)

/-- C7: popping a binary (`unary = false`) Operator with text `+`, `-`, `*`
or `/` first evaluates the right-hand operand (the next pops, from `st`),
then the left-hand operand (from the stack `st1` the first evaluation left),
and returns `lhs + rhs`, `lhs - rhs`, `lhs * rhs`, or `lhs / rhs` with `/`
truncating integer division (division by zero is unguarded in the source and
modeled as undefined); popping a unary Operator evaluates one operand and
returns `1` if it is `0` else `0` for `!`, the operand itself for `+`, and
its negation for `-`. Diagnostics concatenate in evaluation order. -/
theorem claim_C7 (t : Token) (st st1 : List Token) (rhs : Int)
    (d1 : List String) (hop : t.type = TokenType.Operator)
    (h1 : evaluateExpressionTokens st = some (rhs, st1, d1)) :
    (t.d_unary = true →
      (t.d_value = "!" → evaluateExpressionTokens (t :: st) =
        some (if rhs = 0 then 1 else 0, st1, d1)) ∧
      (t.d_value = "+" → evaluateExpressionTokens (t :: st) =
        some (rhs, st1, d1)) ∧
      (t.d_value = "-" → evaluateExpressionTokens (t :: st) =
        some (-rhs, st1, d1))) ∧
    (t.d_unary = false →
      ∀ lhs st2 d2, evaluateExpressionTokens st1 = some (lhs, st2, d2) →
        (t.d_value = "+" → evaluateExpressionTokens (t :: st) =
          some (lhs + rhs, st2, d1 ++ d2)) ∧
        (t.d_value = "-" → evaluateExpressionTokens (t :: st) =
          some (lhs - rhs, st2, d1 ++ d2)) ∧
        (t.d_value = "*" → evaluateExpressionTokens (t :: st) =
          some (lhs * rhs, st2, d1 ++ d2)) ∧
        (t.d_value = "/" → rhs ≠ 0 → evaluateExpressionTokens (t :: st) =
          some (Int.tdiv lhs rhs, st2, d1 ++ d2))) := by
  have hkey : evaluateExpressionTokens (t :: st) =
      evalFuel (st.length + 1) (t :: st) := rfl
  have hrec1 : evalFuel st.length st = some (rhs, st1, d1) := h1
  constructor
  · intro hun
    have hu := evalFuel_cons_unary st.length t st hop hun
    refine ⟨fun hv => ?_, fun hv => ?_, fun hv => ?_⟩ <;>
      rw [hkey, hu, hrec1] <;> simp [applyUnary, hv]
  · intro hun lhs st2 d2 h2
    have hb := evalFuel_cons_binary st.length t st hop hun
    have hlt : st1.length < st.length :=
      evalFuel_shrink st.length st rhs st1 d1 hrec1
    have hrec2 : evalFuel st.length st1 = some (lhs, st2, d2) := by
      rw [evalFuel_eq_evaluateExpressionTokens st.length st1 (le_of_lt hlt)]
      exact h2
    refine ⟨fun hv => ?_, fun hv => ?_, fun hv => ?_, fun hv hz => ?_⟩ <;>
      rw [hkey, hb, hrec1] <;> simp [hrec2, applyBinary, hv, *]

/-- Witness for C7: binary `-` computes `3 - 1 = 2`, unary `-` negates `6`,
and binary `/` truncates `7 / 2 = 3`. -/
theorem claim_C7_witness :
    evaluateExpressionTokens
        [OperatorToken "-" 1 true false, NumberToken "1", NumberToken "3"] =
      some (2, [], []) ∧
    evaluateExpressionTokens
        [OperatorToken "-" 1 false true, NumberToken "6"] =
      some (-6, [], []) ∧
    evaluateExpressionTokens
        [OperatorToken "/" 1 true false, NumberToken "2", NumberToken "7"] =
      some (3, [], []) := by
  refine ⟨?_, ?_, ?_⟩
  · exact (((claim_C7 (OperatorToken "-" 1 true false)
      [NumberToken "1", NumberToken "3"] [NumberToken "3"] 1 []
      rfl (by decide)).2 rfl 3 [] [] (by decide)).2.1 rfl).trans (by decide)
  · exact (((claim_C7 (OperatorToken "-" 1 false true)
      [NumberToken "6"] [] 6 [] rfl (by decide)).1 rfl).2.2 rfl).trans
      (by decide)
  · exact (((claim_C7 (OperatorToken "/" 1 true false)
      [NumberToken "2", NumberToken "7"] [NumberToken "7"] 2 []
      rfl (by decide)).2 rfl 7 [] [] (by decide)).2.2.2 rfl
      (by decide)).trans (by decide)

/-- C8: a popped token that is neither a Number, nor a unary Operator with
text `!`/`+`/`-`, nor a binary Operator with text `+`/`-`/`*`/`/` (e.g. a
Symbol, or an Operator with any other text) makes the evaluator emit a
diagnostic naming the offending token (`errMsg`, built from its `toString`)
and return the sentinel 0. -/
theorem claim_C8 (t : Token) (st : List Token) :
    (t.type = TokenType.Symbol →
      evaluateExpressionTokens (t :: st) = some (0, st, [errMsg t])) ∧
    (t.type = TokenType.Operator → t.d_unary = true →
      t.d_value ≠ "!" → t.d_value ≠ "+" → t.d_value ≠ "-" →
      ∀ rhs st1 d1, evaluateExpressionTokens st = some (rhs, st1, d1) →
        evaluateExpressionTokens (t :: st) =
          some (0, st1, d1 ++ [errMsg t])) ∧
    (t.type = TokenType.Operator → t.d_unary = false →
      t.d_value ≠ "+" → t.d_value ≠ "-" → t.d_value ≠ "*" → t.d_value ≠ "/" →
      ∀ rhs st1 d1 lhs st2 d2,
        evaluateExpressionTokens st = some (rhs, st1, d1) →
        evaluateExpressionTokens st1 = some (lhs, st2, d2) →
        evaluateExpressionTokens (t :: st) =
          some (0, st2, d1 ++ d2 ++ [errMsg t])) := by
  have hkey : evaluateExpressionTokens (t :: st) =
      evalFuel (st.length + 1) (t :: st) := rfl
  refine ⟨fun hty => ?_, fun hop hun hv1 hv2 hv3 rhs st1 d1 h1 => ?_,
    fun hop hun hv1 hv2 hv3 hv4 rhs st1 d1 lhs st2 d2 h1 h2 => ?_⟩
  · have hn : t.type ≠ TokenType.Number := by simp [hty]
    have ho : t.type ≠ TokenType.Operator := by simp [hty]
    rw [hkey, evalFuel_cons_other st.length t st hn ho]
  · have hrec1 : evalFuel st.length st = some (rhs, st1, d1) := h1
    rw [hkey, evalFuel_cons_unary st.length t st hop hun, hrec1]
    simp [applyUnary, hv1, hv2, hv3]
  · have hrec1 : evalFuel st.length st = some (rhs, st1, d1) := h1
    have hlt : st1.length < st.length :=
      evalFuel_shrink st.length st rhs st1 d1 hrec1
    have hrec2 : evalFuel st.length st1 = some (lhs, st2, d2) := by
      rw [evalFuel_eq_evaluateExpressionTokens st.length st1 (le_of_lt hlt)]
      exact h2
    rw [hkey, evalFuel_cons_binary st.length t st hop hun, hrec1]
    simp [hrec2, applyBinary, hv1, hv2, hv3, hv4]

/-- Witness for C8: a `")"` symbol, a unary `~`, and a binary `%` each
produce the diagnostic naming the token and the sentinel 0. -/
theorem claim_C8_witness :
    evaluateExpressionTokens [SymbolToken ")"] =
      some (0, [], [errMsg (SymbolToken ")")]) ∧
    evaluateExpressionTokens
        [OperatorToken "~" 1 true true, NumberToken "5"] =
      some (0, [], [errMsg (OperatorToken "~" 1 true true)]) ∧
    evaluateExpressionTokens
        [OperatorToken "%" 1 true false, NumberToken "2", NumberToken "7"] =
      some (0, [], [errMsg (OperatorToken "%" 1 true false)]) := by
  refine ⟨?_, ?_, ?_⟩
  · exact (claim_C8 (SymbolToken ")") []).1 rfl
  · exact ((claim_C8 (OperatorToken "~" 1 true true) [NumberToken "5"]).2.1
      rfl rfl (by decide) (by decide) (by decide) 5 [] []
      (by decide)).trans (by simp)
  · exact ((claim_C8 (OperatorToken "%" 1 true false)
      [NumberToken "2", NumberToken "7"]).2.2 rfl rfl (by decide) (by decide)
      (by decide) (by decide) 2 [NumberToken "7"] [] 7 [] []
      (by decide) (by decide)).trans (by simp)

/-- C10 (implicit): a binary Operator with unrecognized text still pops and
recursively evaluates both operands before reaching the error branch, so the
returned stack is the one left after both evaluations (at least two tokens
shorter than the stack below the operator) rather than the stack at the
offending token; only then are the sentinel 0 and the diagnostic produced,
after any diagnostics of the operand evaluations. -/
theorem claim_C10 (t : Token) (st st1 st2 : List Token) (rhs lhs : Int)
    (d1 d2 : List String) (hop : t.type = TokenType.Operator)
    (hun : t.d_unary = false)
    (hv1 : t.d_value ≠ "+") (hv2 : t.d_value ≠ "-")
    (hv3 : t.d_value ≠ "*") (hv4 : t.d_value ≠ "/")
    (h1 : evaluateExpressionTokens st = some (rhs, st1, d1))
    (h2 : evaluateExpressionTokens st1 = some (lhs, st2, d2)) :
    evaluateExpressionTokens (t :: st) =
        some (0, st2, d1 ++ d2 ++ [errMsg t]) ∧
      st2.length + 2 ≤ st.length := by
  have hrec1 : evalFuel st.length st = some (rhs, st1, d1) := h1
  have hlt1 : st1.length < st.length :=
    evalFuel_shrink st.length st rhs st1 d1 hrec1
  have hrec2 : evalFuel st.length st1 = some (lhs, st2, d2) := by
    rw [evalFuel_eq_evaluateExpressionTokens st.length st1 (le_of_lt hlt1)]
    exact h2
  have hlt2 : st2.length < st1.length :=
    evalFuel_shrink st.length st1 lhs st2 d2 hrec2
  constructor
  · have hkey : evaluateExpressionTokens (t :: st) =
        evalFuel (st.length + 1) (t :: st) := rfl
    rw [hkey, evalFuel_cons_binary st.length t st hop hun, hrec1]
    simp [hrec2, applyBinary, hv1, hv2, hv3, hv4]
  · omega

/-- Witness for C10: binary `%` over the stack `2 7` consumes both numbers
(two tokens) before erroring with sentinel 0. -/
theorem claim_C10_witness :
    evaluateExpressionTokens
        [OperatorToken "%" 2 true false, NumberToken "2", NumberToken "7"] =
        some (0, [], [] ++ [] ++ [errMsg (OperatorToken "%" 2 true false)]) ∧
      (0 : Nat) + 2 ≤ 2 :=
  claim_C10 (OperatorToken "%" 2 true false)
    [NumberToken "2", NumberToken "7"] [NumberToken "7"] [] 2 7 [] []
    rfl rfl (by decide) (by decide) (by decide) (by decide)
    (by decide) (by decide)

end ShuntingYard
